import Mathlib

/-!
Verification of the PWM robot firmware (`PWM_main.c`, `Timer_A1_Interrupt.c`).

The firmware is embedded shallowly: each C function of the main translation
unit becomes a Lean function on an explicit `RobotState`, returning the new
state together with the list of observable events it issues (motor commands,
blocking delays, diagnostic prints, servo duty updates, writes to the
collision latch).  8-bit registers are modelled as `Nat` with the masking the
C operations perform.
-/

namespace PWMMain

/-- A high-level motor command issued through the Motor layer
(`Motor_Forward`, `Motor_Backward`, `Motor_Left`, `Motor_Right`,
`Motor_Stop`).  The two arguments are the raw duty values for the left and
right motor outputs. -/
inductive MotorCmd : Type where
  | forward (dutyL dutyR : Nat)
  | backward (dutyL dutyR : Nat)
  | left (dutyL dutyR : Nat)
  | right (dutyL dutyR : Nat)
  | stop
  deriving Repr, DecidableEq

/-- Observable events issued by the firmware: motor commands, blocking
millisecond delays (`Clock_Delay1ms`), diagnostic print lines (`printf`),
servo duty updates (`Timer_A2_Update_Duty_Cycle_1/2`), RGB LED writes
(`LED2_Output`) and writes to the `collision_detected` latch. -/
inductive Event : Type where
  | motor (c : MotorCmd)
  | delayMs (ms : Nat)
  | printLine (s : String)
  | servoDuty (channel v : Nat)
  | ledWrite (v : Nat)
  | latchWrite (v : Nat)
  deriving Repr, DecidableEq

/-- One PWM channel of the spec data model: a shared period and one duty
value per output line. -/
structure PWM_Channel : Type where
  period : Nat
  duty1 : Nat
  duty2 : Nat
  deriving Repr, DecidableEq

/-- The mutable state of the main translation unit: the two globals of
`PWM_main.c` (`collision_detected`, `bumper_sensor_value`), the `P8->OUT`
LED register (8 bits), the Timer A2 servo PWM channel, and the last value
written to the RGB LED. -/
structure RobotState : Type where
  collision_detected : Nat
  bumper_sensor_value : Nat
  p8_out : Nat
  servo : PWM_Channel
  led2 : Nat
  deriving Repr, DecidableEq

/-- Modelled from the spec: the PWM channel driver sources
(`Timer_A0_PWM.c`, `Timer_A2_PWM.c`) are not among the provided source
files; per spec §4.1, `update_duty(channel_index, value)` updates one
output's duty value without disturbing the other or the period, and the
value is clamped to `[0, period]`. -/
def update_duty (ch : PWM_Channel) (idx : Nat) (v : Nat) : PWM_Channel :=
  let clamped := min v ch.period
  if idx = 1 then { ch with duty1 := clamped } else { ch with duty2 := clamped }

/-- Modelled from the spec: `Timer_A2_Update_Duty_Cycle_1` updates the duty
value of output line 1 of the Timer A2 servo PWM channel. -/
def Timer_A2_Update_Duty_Cycle_1 (ch : PWM_Channel) (v : Nat) : PWM_Channel :=
  update_duty ch 1 v

/-- Modelled from the spec: `Timer_A2_Update_Duty_Cycle_2` updates the duty
value of output line 2 of the Timer A2 servo PWM channel. -/
def Timer_A2_Update_Duty_Cycle_2 (ch : PWM_Channel) (v : Nat) : PWM_Channel :=
  update_duty ch 2 v

/-- Modelled constant: the value `LED2_Output` receives for red
(`RGB_LED_RED` from `GPIO.h`, not among the provided sources). -/
def RGB_LED_RED : Nat := 1

/-- Modelled constant: the value `LED2_Output` receives for blue
(`RGB_LED_BLUE` from `GPIO.h`, not among the provided sources). -/
def RGB_LED_BLUE : Nat := 4

/-- The uppercase hexadecimal digit character for `n < 16`, as produced by
the `%X` conversion of `printf`. -/
def hexDigitUpper (n : Nat) : Char :=
  if n < 10 then Char.ofNat (48 + n) else Char.ofNat (55 + n)

/-- The rendering of an 8-bit value by the `%02X` conversion of `printf`:
two uppercase hexadecimal digits, zero-padded. -/
def hex2 (b : Nat) : String :=
  String.mk [hexDigitUpper (b / 16 % 16), hexDigitUpper (b % 16)]

/-- The diagnostic line printed by `Bumper_Sensors_Handler` for sensor
bitmask `b`:  `printf("Collision Detected! Bumper Sensor State: 0x%02X\n", b)`. -/
def collisionMsg (b : Nat) : String :=
  "Collision Detected! Bumper Sensor State: 0x" ++ hex2 b

/-- `Bumper_Sensors_Handler(bumper_sensor_state)` (PWM_main.c lines 49-56):
if `collision_detected == 0`, print the collision diagnostic line and set
`collision_detected = 1`; otherwise do nothing. -/
def Bumper_Sensors_Handler (bumper_sensor_state : Nat) (s : RobotState) :
    RobotState × List Event :=
  if s.collision_detected = 0 then
    ({ s with collision_detected := 1 },
     [Event.printLine (collisionMsg bumper_sensor_state), Event.latchWrite 1])
  else
    (s, [])

/-- `Timer_A1_10_Hz_Task` (PWM_main.c lines 68-80): if
`collision_detected == 0`, `P8->OUT ^= 0x21; P8->OUT &= ~0xC0;` else
`P8->OUT ^= 0xC0; P8->OUT &= ~0x21;`.  On the 8-bit register, `~0xC0` is
`0x3F` and `~0x21` is `0xDE`. -/
def Timer_A1_10_Hz_Task (s : RobotState) : RobotState :=
  if s.collision_detected = 0 then
    { s with p8_out := (s.p8_out ^^^ 0x21) &&& 0x3F }
  else
    { s with p8_out := (s.p8_out ^^^ 0xC0) &&& 0xDE }

/-- Interleaving of a command list with a hold-duration list into an event
trace: each command is immediately followed by its delay. -/
def stepsTrace (cmds : List MotorCmd) (durs : List Nat) : List Event :=
  (cmds.zip durs).flatMap fun p => [Event.motor p.1, Event.delayMs p.2]

/-- `Drive_Pattern_1` (PWM_main.c lines 104-137): forward at 50% duty, then
stop, left at 30%, stop, right at 30%, stop, backward at 30%, stop — each
command followed by `Clock_Delay1ms(2000)`.  Touches no global state. -/
def Drive_Pattern_1 (s : RobotState) : RobotState × List Event :=
  (s,
   [Event.motor (MotorCmd.forward 7500 7500), Event.delayMs 2000,
    Event.motor MotorCmd.stop, Event.delayMs 2000,
    Event.motor (MotorCmd.left 4500 4500), Event.delayMs 2000,
    Event.motor MotorCmd.stop, Event.delayMs 2000,
    Event.motor (MotorCmd.right 4500 4500), Event.delayMs 2000,
    Event.motor MotorCmd.stop, Event.delayMs 2000,
    Event.motor (MotorCmd.backward 4500 4500), Event.delayMs 2000,
    Event.motor MotorCmd.stop, Event.delayMs 2000])

/-- `Handle_Collision` (PWM_main.c lines 139-173): stop (2000 ms), backward
at 4500/4500 (3000 ms), stop (1000 ms), right at 1500/1500 (5000 ms),
stop (2000 ms), then `collision_detected = 0` as the final statement. -/
def Handle_Collision (s : RobotState) : RobotState × List Event :=
  ({ s with collision_detected := 0 },
   [Event.motor MotorCmd.stop, Event.delayMs 2000,
    Event.motor (MotorCmd.backward 4500 4500), Event.delayMs 3000,
    Event.motor MotorCmd.stop, Event.delayMs 1000,
    Event.motor (MotorCmd.right 1500 1500), Event.delayMs 5000,
    Event.motor MotorCmd.stop, Event.delayMs 2000,
    Event.latchWrite 0])

/-- One iteration of the active `while(1)` body of `main` (PWM_main.c lines
213-238): rotate the servos to 0 (duty 1700) with the red LED and a 5000 ms
delay, then to 180 (duty 7000) with the blue LED and a 5000 ms delay.  The
latch-driven branch (`Motor_Forward` / `Handle_Collision`) and
`Drive_Pattern_1` are commented out in the source and are not executed. -/
def mainLoopIter (s : RobotState) : RobotState × List Event :=
  let c1 := Timer_A2_Update_Duty_Cycle_1 s.servo 1700
  let c2 := Timer_A2_Update_Duty_Cycle_2 c1 1700
  let c3 := Timer_A2_Update_Duty_Cycle_1 c2 7000
  let c4 := Timer_A2_Update_Duty_Cycle_2 c3 7000
  ({ s with servo := c4, led2 := RGB_LED_BLUE },
   [Event.servoDuty 1 1700, Event.servoDuty 2 1700,
    Event.ledWrite RGB_LED_RED, Event.delayMs 5000,
    Event.servoDuty 1 7000, Event.servoDuty 2 7000,
    Event.ledWrite RGB_LED_BLUE, Event.delayMs 5000])

/-- The execution steps of the program after initialization: a falling-edge
bumper interrupt (running `Bumper_Sensors_Handler` with the sampled
bitmask), a Timer A1 periodic tick (running `Timer_A1_10_Hz_Task`), one
iteration of the main loop body, or a run of the `Handle_Collision`
recovery routine. -/
inductive SysStep : Type where
  | bumperEdge (b : Nat)
  | timerTick
  | loopIter
  | recovery
  deriving Repr, DecidableEq

/-- The state/trace semantics of one execution step. -/
def stepRun : SysStep → RobotState → RobotState × List Event
  | SysStep.bumperEdge b, s => Bumper_Sensors_Handler b s
  | SysStep.timerTick, s => (Timer_A1_10_Hz_Task s, [])
  | SysStep.loopIter, s => mainLoopIter s
  | SysStep.recovery, s => Handle_Collision s

/-- Extract the motor command of an event, if any. -/
def motorOf : Event → Option MotorCmd
  | Event.motor c => some c
  | _ => none

/-- Extract the printed line of an event, if any. -/
def printedOf : Event → Option String
  | Event.printLine m => some m
  | _ => none

/-- The motor commands issued in a trace, in order. -/
def motorCmds (t : List Event) : List MotorCmd := t.filterMap motorOf

/-- The lines printed in a trace, in order. -/
def printedLines (t : List Event) : List String := t.filterMap printedOf

/-- Whether a character is an uppercase hexadecimal digit (`0`-`9` or `A`-`F`). -/
def isUpperHexDigit (c : Char) : Bool :=
  (Char.ofNat 48 ≤ c && c ≤ Char.ofNat 57) || (Char.ofNat 65 ≤ c && c ≤ Char.ofNat 70)

/-- The numeric value of an uppercase hexadecimal digit character. -/
def hexCharVal (c : Char) : Nat :=
  if c.toNat ≤ 57 then c.toNat - 48 else c.toNat - 55

/-- Decode a two-character hexadecimal rendering back to its value. -/
def decodeHex2 (m : String) : Nat :=
  match m.data with
  | [c1, c2] => hexCharVal c1 * 16 + hexCharVal c2
  | _ => 0

/-! ## Helper lemmas -/

lemma Timer_A1_10_Hz_Task_latch_eq (s : RobotState) :
    (Timer_A1_10_Hz_Task s).collision_detected = s.collision_detected := by
  unfold Timer_A1_10_Hz_Task
  split <;> rfl

lemma mainLoopIter_latch_eq (s : RobotState) :
    (mainLoopIter s).1.collision_detected = s.collision_detected := rfl

lemma land_land_eq_zero (x m g : Nat) (h : m &&& g = 0) : (x &&& m) &&& g = 0 := by
  apply Nat.eq_of_testBit_eq
  intro i
  have hm := congrArg (fun n => n.testBit i) h
  simp only [Nat.testBit_land, Nat.zero_testBit] at hm ⊢
  rw [Bool.and_assoc, hm, Bool.and_false]

/-! ## Claim theorems -/

/-- C1: the collision-recovery maneuver `Handle_Collision` issues exactly
5 motor commands in order — Stop, Backward(4500,4500), Stop,
Right(1500,1500), Stop — each immediately followed by its blocking delay,
with hold-durations [2000, 3000, 1000, 5000, 2000] ms, and sets the
collision latch to 0 only after the final delay, as its last action. -/
theorem Handle_Collision_sequence (s : RobotState) :
    (Handle_Collision s).2 =
      stepsTrace
        [MotorCmd.stop, MotorCmd.backward 4500 4500, MotorCmd.stop,
         MotorCmd.right 1500 1500, MotorCmd.stop]
        [2000, 3000, 1000, 5000, 2000] ++ [Event.latchWrite 0] ∧
    motorCmds (Handle_Collision s).2 =
      [MotorCmd.stop, MotorCmd.backward 4500 4500, MotorCmd.stop,
       MotorCmd.right 1500 1500, MotorCmd.stop] ∧
    (Handle_Collision s).2.getLast? = some (Event.latchWrite 0) ∧
    (Handle_Collision s).1 = { s with collision_detected := 0 } :=
  ⟨rfl, rfl, rfl, rfl⟩

/-- C2: the demonstration pattern `Drive_Pattern_1` issues exactly 8 motor
commands in order — Forward(7500,7500), Stop, Left(4500,4500), Stop,
Right(4500,4500), Stop, Backward(4500,4500), Stop — each immediately
followed by a 2000 ms blocking delay, performs no other motor command, and
leaves the program state unchanged. -/
theorem Drive_Pattern_1_sequence (s : RobotState) :
    (Drive_Pattern_1 s).2 =
      stepsTrace
        [MotorCmd.forward 7500 7500, MotorCmd.stop, MotorCmd.left 4500 4500,
         MotorCmd.stop, MotorCmd.right 4500 4500, MotorCmd.stop,
         MotorCmd.backward 4500 4500, MotorCmd.stop]
        (List.replicate 8 2000) ∧
    motorCmds (Drive_Pattern_1 s).2 =
      [MotorCmd.forward 7500 7500, MotorCmd.stop, MotorCmd.left 4500 4500,
       MotorCmd.stop, MotorCmd.right 4500 4500, MotorCmd.stop,
       MotorCmd.backward 4500 4500, MotorCmd.stop] ∧
    (Drive_Pattern_1 s).1 = s :=
  ⟨rfl, rfl, rfl⟩

/-- C3: `Bumper_Sensors_Handler` has first-edge-wins semantics: with the
latch clear it sets the latch to 1 and prints the diagnostic line exactly
once; with the latch already set it is a complete no-op; hence a second
invocation right after a first one changes nothing and prints nothing (the
handler is idempotent). -/
theorem Bumper_Sensors_Handler_first_edge_wins (b : Nat) (s : RobotState) :
    Bumper_Sensors_Handler b (Bumper_Sensors_Handler b s).1 =
      ((Bumper_Sensors_Handler b s).1, []) ∧
    (s.collision_detected = 0 →
      (Bumper_Sensors_Handler b s).1 = { s with collision_detected := 1 } ∧
      (Bumper_Sensors_Handler b s).2 =
        [Event.printLine (collisionMsg b), Event.latchWrite 1] ∧
      printedLines (Bumper_Sensors_Handler b s).2 = [collisionMsg b]) ∧
    (s.collision_detected ≠ 0 → Bumper_Sensors_Handler b s = (s, [])) := by
  by_cases h : s.collision_detected = 0 <;>
    simp [Bumper_Sensors_Handler, h, printedLines, printedOf]

/-- Witness for C3 at a concrete input: from a cleared latch the handler
latches and prints once. -/
theorem Bumper_Sensors_Handler_first_edge_wins_wit :
    (Bumper_Sensors_Handler 5 ⟨0, 0, 0, ⟨60000, 0, 0⟩, 0⟩).1 =
      { collision_detected := 1, bumper_sensor_value := 0, p8_out := 0,
        servo := ⟨60000, 0, 0⟩, led2 := 0 } ∧
    (Bumper_Sensors_Handler 5 ⟨0, 0, 0, ⟨60000, 0, 0⟩, 0⟩).2 =
      [Event.printLine (collisionMsg 5), Event.latchWrite 1] ∧
    printedLines (Bumper_Sensors_Handler 5 ⟨0, 0, 0, ⟨60000, 0, 0⟩, 0⟩).2 =
      [collisionMsg 5] :=
  (Bumper_Sensors_Handler_first_edge_wins 5 ⟨0, 0, 0, ⟨60000, 0, 0⟩, 0⟩).2.1 rfl

/-- C4: over every execution step after initialization, the collision latch
goes from 0 to nonzero only on a bumper-edge interrupt (inside
`Bumper_Sensors_Handler`), and goes from nonzero to 0 only on a completed
run of the `Handle_Collision` recovery routine, whose last action is the
latch write. -/
theorem latch_transition_ownership (e : SysStep) (s : RobotState) :
    (s.collision_detected = 0 → (stepRun e s).1.collision_detected ≠ 0 →
      ∃ b, e = SysStep.bumperEdge b) ∧
    (s.collision_detected ≠ 0 → (stepRun e s).1.collision_detected = 0 →
      e = SysStep.recovery ∧
      (stepRun e s).2.getLast? = some (Event.latchWrite 0)) := by
  constructor
  · intro _ _
    cases e with
    | bumperEdge b => exact ⟨b, rfl⟩
    | timerTick =>
        rename_i h0 h1
        exact absurd (Eq.trans (Timer_A1_10_Hz_Task_latch_eq s) h0) h1
    | loopIter =>
        rename_i h0 h1
        exact absurd (Eq.trans (mainLoopIter_latch_eq s) h0) h1
    | recovery =>
        rename_i h1
        exact absurd rfl h1
  · intro h0 h1
    cases e with
    | bumperEdge b =>
        have hne : ¬ s.collision_detected = 0 := h0
        simp only [stepRun, Bumper_Sensors_Handler, if_neg hne] at h1
        exact absurd h1 h0
    | timerTick =>
        exact absurd (Eq.trans (Timer_A1_10_Hz_Task_latch_eq s).symm h1) h0
    | loopIter =>
        exact absurd (Eq.trans (mainLoopIter_latch_eq s).symm h1) h0
    | recovery => exact ⟨rfl, rfl⟩

/-- Witness for C4 at a concrete input: a recovery run from a latched state
is the unique source of a nonzero-to-zero latch transition, ending in the
latch write. -/
theorem latch_transition_ownership_wit :
    SysStep.recovery = SysStep.recovery ∧
    (stepRun SysStep.recovery ⟨1, 0, 0, ⟨60000, 0, 0⟩, 0⟩).2.getLast? =
      some (Event.latchWrite 0) :=
  (latch_transition_ownership SysStep.recovery ⟨1, 0, 0, ⟨60000, 0, 0⟩, 0⟩).2
    (by decide) rfl

set_option maxRecDepth 4000 in
/-- C5: each invocation of `Timer_A1_10_Hz_Task` reads the collision latch
and updates only `P8->OUT`: with the latch clear it toggles the
front-yellow group (bits 0x21) and clears the back-red group (bits 0xC0);
with the latch set it toggles 0xC0 and clears 0x21; the remaining register
bits (mask 0x1E) and all other state are untouched. -/
theorem Timer_A1_10_Hz_Task_indicators (s : RobotState) (h : s.p8_out < 256) :
    ((Timer_A1_10_Hz_Task s).collision_detected = s.collision_detected ∧
     (Timer_A1_10_Hz_Task s).bumper_sensor_value = s.bumper_sensor_value ∧
     (Timer_A1_10_Hz_Task s).servo = s.servo ∧
     (Timer_A1_10_Hz_Task s).led2 = s.led2) ∧
    (s.collision_detected = 0 →
      (Timer_A1_10_Hz_Task s).p8_out &&& 0x21 = (s.p8_out &&& 0x21) ^^^ 0x21 ∧
      (Timer_A1_10_Hz_Task s).p8_out &&& 0xC0 = 0 ∧
      (Timer_A1_10_Hz_Task s).p8_out &&& 0x1E = s.p8_out &&& 0x1E) ∧
    (s.collision_detected ≠ 0 →
      (Timer_A1_10_Hz_Task s).p8_out &&& 0xC0 = (s.p8_out &&& 0xC0) ^^^ 0xC0 ∧
      (Timer_A1_10_Hz_Task s).p8_out &&& 0x21 = 0 ∧
      (Timer_A1_10_Hz_Task s).p8_out &&& 0x1E = s.p8_out &&& 0x1E) := by
  have key : ∀ x, x < 256 →
      (((x ^^^ 33) &&& 63) &&& 33 = (x &&& 33) ^^^ 33 ∧
       ((x ^^^ 33) &&& 63) &&& 192 = 0 ∧
       ((x ^^^ 33) &&& 63) &&& 30 = x &&& 30) ∧
      (((x ^^^ 192) &&& 222) &&& 192 = (x &&& 192) ^^^ 192 ∧
       ((x ^^^ 192) &&& 222) &&& 33 = 0 ∧
       ((x ^^^ 192) &&& 222) &&& 30 = x &&& 30) := by decide
  refine ⟨?_, ?_, ?_⟩
  · unfold Timer_A1_10_Hz_Task
    split <;> exact ⟨rfl, rfl, rfl, rfl⟩
  · intro h0
    simp only [Timer_A1_10_Hz_Task, if_pos h0]
    exact (key s.p8_out h).1
  · intro h0
    simp only [Timer_A1_10_Hz_Task, if_neg h0]
    exact (key s.p8_out h).2

/-- Witness for C5 at a concrete input: with latch clear and
`P8->OUT = 0x2A`, the yellow group toggles and the red group is cleared. -/
theorem Timer_A1_10_Hz_Task_indicators_wit :
    (42 : Nat) < 256 ∧
    (Timer_A1_10_Hz_Task ⟨0, 0, 42, ⟨60000, 0, 0⟩, 0⟩).p8_out &&& 0x21 =
      ((42 : Nat) &&& 0x21) ^^^ 0x21 ∧
    (Timer_A1_10_Hz_Task ⟨0, 0, 42, ⟨60000, 0, 0⟩, 0⟩).p8_out &&& 0xC0 = 0 :=
  ⟨by decide,
   ((Timer_A1_10_Hz_Task_indicators ⟨0, 0, 42, ⟨60000, 0, 0⟩, 0⟩ (by decide)).2.1
      rfl).1,
   ((Timer_A1_10_Hz_Task_indicators ⟨0, 0, 42, ⟨60000, 0, 0⟩, 0⟩ (by decide)).2.1
      rfl).2.1⟩

/-- C6 counterexample: with the collision latch set, one iteration of the
active main loop body leaves the latch set and issues no motor command at
all — it does not invoke the collision-recovery maneuver, because the
latch-driven branch is commented out in the source. -/
theorem main_loop_ignores_latch_cex :
    (mainLoopIter ⟨1, 0, 0, ⟨60000, 0, 0⟩, 0⟩).1.collision_detected = 1 ∧
    motorCmds (mainLoopIter ⟨1, 0, 0, ⟨60000, 0, 0⟩, 0⟩).2 = [] := by decide

/-- C6 amended: the active main loop body runs the servo sweep
unconditionally — its event trace is independent of the collision latch, it
never issues a motor command, and it never changes the latch (or the other
globals); the two-state latch-driven selection exists only as commented-out
code. -/
theorem main_loop_unconditional (s : RobotState) :
    (mainLoopIter s).1.collision_detected = s.collision_detected ∧
    (mainLoopIter s).1.bumper_sensor_value = s.bumper_sensor_value ∧
    (mainLoopIter s).1.p8_out = s.p8_out ∧
    motorCmds (mainLoopIter s).2 = [] ∧
    (mainLoopIter s).2 = (mainLoopIter { s with collision_detected := 0 }).2 ∧
    (mainLoopIter s).2 = (mainLoopIter { s with collision_detected := 1 }).2 :=
  ⟨rfl, rfl, rfl, rfl, rfl, rfl⟩

/-- C7 (code bug): `Bumper_Sensors_Handler` never writes
`bumper_sensor_value`, although the variable's own comment says it gets
updated on each interrupt event; invoked with bitmask 0x01 from the initial
state, the stored value remains 0. -/
theorem bumper_sensor_value_not_updated :
    (∀ b s, (Bumper_Sensors_Handler b s).1.bumper_sensor_value =
      s.bumper_sensor_value) ∧
    (Bumper_Sensors_Handler 1 ⟨0, 0, 0, ⟨60000, 0, 0⟩, 0⟩).1.bumper_sensor_value
      = 0 := by
  constructor
  · intro b s
    unfold Bumper_Sensors_Handler
    split <;> rfl
  · decide

set_option maxRecDepth 4000 in
/-- C8: on a latch transition 0 to 1 the handler prints exactly one line,
`"Collision Detected! Bumper Sensor State: 0x"` followed by the bitmask
rendered by `%02X` as exactly two uppercase hexadecimal digits that decode
back to the bitmask; no line is printed while the latch is already set. -/
theorem collision_diagnostic_line (b : Nat) (s : RobotState) (hb : b < 256) :
    (s.collision_detected = 0 →
      printedLines (Bumper_Sensors_Handler b s).2 = [collisionMsg b]) ∧
    (s.collision_detected ≠ 0 →
      printedLines (Bumper_Sensors_Handler b s).2 = []) ∧
    collisionMsg b = "Collision Detected! Bumper Sensor State: 0x" ++ hex2 b ∧
    (hex2 b).length = 2 ∧
    (hex2 b).data.all isUpperHexDigit = true ∧
    decodeHex2 (hex2 b) = b := by
  have key : ∀ x, x < 256 →
      (hex2 x).length = 2 ∧ (hex2 x).data.all isUpperHexDigit = true ∧
      decodeHex2 (hex2 x) = x := by decide
  refine ⟨?_, ?_, rfl, (key b hb).1, (key b hb).2.1, (key b hb).2.2⟩
  · intro h0
    simp [Bumper_Sensors_Handler, h0, printedLines, printedOf]
  · intro h0
    simp [Bumper_Sensors_Handler, h0, printedLines]

/-- Witness for C8 at a concrete input: bitmask 0xAB prints once from a
cleared latch and its rendering decodes back to 0xAB. -/
theorem collision_diagnostic_line_wit :
    (171 : Nat) < 256 ∧
    printedLines (Bumper_Sensors_Handler 171 ⟨0, 0, 0, ⟨60000, 0, 0⟩, 0⟩).2 =
      [collisionMsg 171] ∧
    decodeHex2 (hex2 171) = 171 :=
  ⟨by decide,
   (collision_diagnostic_line 171 ⟨0, 0, 0, ⟨60000, 0, 0⟩, 0⟩ (by decide)).1 rfl,
   (collision_diagnostic_line 171 ⟨0, 0, 0, ⟨60000, 0, 0⟩, 0⟩
      (by decide)).2.2.2.2.2⟩

/-- C9: `update_duty` (modelled from the spec, as the PWM driver sources
are not provided) called with a value greater than the period clamps the
effective duty to the period — never above 100% duty — and leaves the other
output line and the period undisturbed; in general the updated duty never
exceeds the period. -/
theorem update_duty_clamps (ch : PWM_Channel) (v : Nat) (h : ch.period < v) :
    (update_duty ch 1 v).duty1 = ch.period ∧
    (update_duty ch 1 v).duty2 = ch.duty2 ∧
    (update_duty ch 1 v).period = ch.period ∧
    (update_duty ch 2 v).duty2 = ch.period ∧
    (update_duty ch 2 v).duty1 = ch.duty1 ∧
    (update_duty ch 2 v).period = ch.period ∧
    (∀ w, (update_duty ch 1 w).duty1 ≤ ch.period) ∧
    (∀ w, (update_duty ch 2 w).duty2 ≤ ch.period) :=
  have hm : min v ch.period = ch.period := Nat.min_eq_right (Nat.le_of_lt h)
  ⟨hm, rfl, rfl, hm, rfl, rfl,
   fun w => Nat.min_le_right w ch.period,
   fun w => Nat.min_le_right w ch.period⟩

/-- Witness for C9 at a concrete input: with period 100, updating a duty to
150 stores 100 and leaves the other line at its old value. -/
theorem update_duty_clamps_wit :
    (100 : Nat) < 150 ∧
    (update_duty ⟨100, 10, 20⟩ 1 150).duty1 = 100 ∧
    (update_duty ⟨100, 10, 20⟩ 1 150).duty2 = 20 :=
  ⟨by decide, (update_duty_clamps ⟨100, 10, 20⟩ 150 (by decide)).1,
   (update_duty_clamps ⟨100, 10, 20⟩ 150 (by decide)).2.1⟩

/-- C10: after any invocation of `Timer_A1_10_Hz_Task`, the front-yellow
group (P8 bits 0x21) and the back-red group (P8 bits 0xC0) are never both
nonzero: the branch taken fully clears the group not selected by the
latch. -/
theorem indicator_groups_mutually_exclusive (s : RobotState) :
    (Timer_A1_10_Hz_Task s).p8_out &&& 0x21 = 0 ∨
    (Timer_A1_10_Hz_Task s).p8_out &&& 0xC0 = 0 := by
  by_cases h : s.collision_detected = 0
  · right
    simp only [Timer_A1_10_Hz_Task, if_pos h]
    exact land_land_eq_zero (s.p8_out ^^^ 33) 63 192 (by decide)
  · left
    simp only [Timer_A1_10_Hz_Task, if_neg h]
    exact land_land_eq_zero (s.p8_out ^^^ 192) 222 33 (by decide)

end PWMMain
